import Mathlib

/-!
Verification of the API token lifecycle core of the rtbhouse-python-sdk
repository (`rtbhouse_sdk/api_tokens/managers.py`, `storages.py`,
`models.py` and `rtbhouse_sdk/exceptions.py`).

Modelling conventions:
* `datetime` values are modelled as integer UNIX timestamps (seconds);
  `timedelta(minutes=1)` is `60`, `timedelta(days=4)` is `4 * 86400`.
* The token-issuer HTTP boundary (`ApiTokensAPI.heartbeat` / `rotate`) is
  modelled as a pair of pure response functions; the manager code is
  embedded as a pure function of the stored record, the current time and
  those response functions, returning the call result together with the
  resulting storage contents and counters of the observable effects
  (heartbeat calls, rotate calls, warnings emitted, lock acquisition).
* Python exceptions become `Except` values carrying the message string.
-/

deriving instance DecidableEq for Except

namespace RtbSdk

/-- One minute, in seconds (`timedelta(minutes=1)`). -/
def secondsPerMinute : Int := 60

/-- One day, in seconds (`timedelta(days=1)`). -/
def secondsPerDay : Int := 86400

/-- `ROTATION_WINDOW = timedelta(days=4)` from `managers.py`. -/
def ROTATION_WINDOW : Int := 4 * secondsPerDay

/-- `self._expiration_margin = timedelta(minutes=1)` from `managers.py`. -/
def EXPIRATION_MARGIN : Int := secondsPerMinute

/-- `EXPIRED_MSG` constant from `managers.py`. -/
def EXPIRED_MSG : String :=
  "API token expired. Please manually create a new one and configure it by calling the configure() method."

/-- `ApiToken` pydantic model from `api_tokens/models.py`: a token string
plus an absolute expiry timestamp. -/
structure ApiToken where
  token : String
  expires_at : Int
deriving DecidableEq, Repr

/-- `ApiTokenStatus` response model from `api_tokens/api.py`. -/
structure ApiTokenStatus where
  expires_at : Int
  is_expired : Bool
  can_rotate : Bool
deriving DecidableEq, Repr

/-- `RotatedApiToken` response model from `api_tokens/api.py`. -/
structure RotatedApiToken where
  token : String
  expires_at : Int
deriving DecidableEq, Repr

/-- The issuer boundary (`ApiTokensAPI` in `api_tokens/api.py`), modelled
as pure response functions from the bearer token sent to the response
received. -/
structure ApiTokensAPI where
  heartbeat : String → ApiTokenStatus
  rotate : String → RotatedApiToken

/-- Errors raised by the token subsystem: `TokenExpiredException`
(`managers.py`) and `ApiTokenStorageException` (`storages.py`), each
carrying its message. -/
inductive SdkError where
  | tokenExpired (msg : String)
  | storageError (msg : String)
deriving DecidableEq, Repr

/-- `ApiTokenManager._raise_if_expired`, as the boolean condition under
which it raises: `now >= api_token.expires_at - self._expiration_margin`. -/
def expired_check (api_token : ApiToken) (now : Int) : Bool :=
  decide (now ≥ api_token.expires_at - EXPIRATION_MARGIN)

/-- `ApiTokenManager._in_rotation_window`:
`now >= api_token.expires_at - ROTATION_WINDOW`. -/
def in_rotation_window (api_token : ApiToken) (now : Int) : Bool :=
  decide (now ≥ api_token.expires_at - ROTATION_WINDOW)

/-- Result of one `get_token()` call: the returned value or raised error,
the storage contents afterwards, and the observable effects of the call. -/
structure GetTokenOutcome where
  result : Except SdkError String
  storage : Option ApiToken
  heartbeats : Nat
  rotates : Nat
  warnings : Nat
  locked : Bool
deriving DecidableEq, Repr

/-- `ApiTokenManager.get_token` from `managers.py`, for a single caller:
the in-memory storage is `Option ApiToken` (`InMemoryApiTokenStorage`),
so the reload inside the lock sees the same record and the two `utcnow()`
readings are the same `now`.  The redundant re-checks inside the lock are
kept exactly as in the source. -/
def get_token (storage : Option ApiToken) (now : Int) (api : ApiTokensAPI) :
    GetTokenOutcome :=
  match storage with
  | none =>
    ⟨.error (.storageError "No API token stored in memory"), none, 0, 0, 0, false⟩
  | some api_token =>
    if expired_check api_token now then
      ⟨.error (.tokenExpired EXPIRED_MSG), some api_token, 0, 0, 0, false⟩
    else if !(in_rotation_window api_token now) then
      -- fast path
      ⟨.ok api_token.token, some api_token, 0, 0, 0, false⟩
    else
      -- with self._lock: reload inside lock (same record for one caller)
      if expired_check api_token now then
        ⟨.error (.tokenExpired EXPIRED_MSG), some api_token, 0, 0, 0, true⟩
      else if !(in_rotation_window api_token now) then
        ⟨.ok api_token.token, some api_token, 0, 0, 0, true⟩
      else
        let status := api.heartbeat api_token.token
        if status.is_expired then
          ⟨.error (.tokenExpired EXPIRED_MSG), some api_token, 1, 0, 0, true⟩
        else if !status.can_rotate then
          if in_rotation_window api_token now then
            ⟨.ok api_token.token, some api_token, 1, 0, 1, true⟩
          else
            ⟨.ok api_token.token, some api_token, 1, 0, 0, true⟩
        else
          let rotated := api.rotate api_token.token
          let new_api_token : ApiToken := ⟨rotated.token, rotated.expires_at⟩
          ⟨.ok new_api_token.token, some new_api_token, 1, 1, 0, true⟩

/-- Result of one `keep_alive()` call. -/
structure KeepAliveOutcome where
  result : Except SdkError Unit
  storage : Option ApiToken
  heartbeats : Nat
  rotates : Nat
  warnings : Nat
deriving DecidableEq, Repr

/-- `ApiTokenManager.keep_alive` from `managers.py` (always runs under the
lock; the lock acquisition is unconditional, so it is not recorded). -/
def keep_alive (storage : Option ApiToken) (now : Int) (api : ApiTokensAPI) :
    KeepAliveOutcome :=
  match storage with
  | none =>
    ⟨.error (.storageError "No API token stored in memory"), none, 0, 0, 0⟩
  | some api_token =>
    if expired_check api_token now then
      ⟨.error (.tokenExpired EXPIRED_MSG), some api_token, 0, 0, 0⟩
    else
      let status := api.heartbeat api_token.token
      if status.is_expired then
        ⟨.error (.tokenExpired EXPIRED_MSG), some api_token, 1, 0, 0⟩
      else if !status.can_rotate then
        if in_rotation_window api_token now then
          ⟨.ok (), some api_token, 1, 0, 1⟩
        else
          ⟨.ok (), some api_token, 1, 0, 0⟩
      else
        let rotated := api.rotate api_token.token
        let new_api_token : ApiToken := ⟨rotated.token, rotated.expires_at⟩
        ⟨.ok (), some new_api_token, 1, 1, 0⟩

/-- Result of one `configure()` call. -/
structure ConfigureOutcome where
  result : Except SdkError Unit
  storage : Option ApiToken
  heartbeats : Nat
deriving DecidableEq, Repr

/-- `ApiTokenManager.configure` from `managers.py`: heartbeat the given
token; raise `TokenExpiredException` if the issuer reports it expired,
otherwise save `ApiToken(token, status.expires_at)`. -/
def configure (token : String) (storage : Option ApiToken) (api : ApiTokensAPI) :
    ConfigureOutcome :=
  let status := api.heartbeat token
  if status.is_expired then
    ⟨.error (.tokenExpired EXPIRED_MSG), storage, 1⟩
  else
    ⟨.ok (), some ⟨token, status.expires_at⟩, 1⟩

/-- A concrete issuer whose heartbeat always reports an expired token;
used to instantiate theorems on concrete inputs. -/
def sampleApi : ApiTokensAPI :=
  ⟨fun _ => ⟨0, true, true⟩, fun s => ⟨s, 0⟩⟩

/-- A concrete issuer for the rotation scenario of the spec: heartbeat
reports valid and rotatable, rotate returns token "xyz" expiring at
day 14 (time zero being "now"). -/
def rotateScenarioApi : ApiTokensAPI :=
  ⟨fun _ => ⟨172800, false, true⟩, fun _ => ⟨"xyz", 1209600⟩⟩

/-- A concrete issuer refusing rotation while reporting the token valid. -/
def refuseScenarioApi : ApiTokensAPI :=
  ⟨fun _ => ⟨172800, false, false⟩, fun _ => ⟨"xyz", 1209600⟩⟩

/-- A concrete issuer for the configure scenario of the spec: heartbeat
reports a valid token expiring at day 10 (time zero being "now"). -/
def configScenarioApi : ApiTokensAPI :=
  ⟨fun _ => ⟨864000, false, true⟩, fun s => ⟨s, 864000⟩⟩

/-! ### Rate-limit header parsing (`rtbhouse_sdk/exceptions.py`) -/

/-- Python `str.split(sep)` for a one-character separator, on character
lists: splits at every occurrence, keeping empty pieces, and yields one
(empty) piece for the empty string. -/
def splitOnChar (sep : Char) : List Char → List (List Char)
  | [] => [[]]
  | c :: rest =>
    let r := splitOnChar sep rest
    if c = sep then [] :: r
    else
      match r with
      | [] => [[c]]
      | x :: xs => (c :: x) :: xs

/-- Numeric value of a decimal digit character. -/
def digitVal (c : Char) : Nat := c.toNat - 48

/-- Longest decimal-digit run at the head of the list, and the rest. -/
def takeDigits : List Char → List Char × List Char
  | [] => ([], [])
  | c :: rest =>
    if c.isDigit then
      let p := takeDigits rest
      (c :: p.1, p.2)
    else ([], c :: rest)

/-- Value of a decimal digit string. -/
def charsVal (l : List Char) : Nat :=
  l.foldl (fun a c => a * 10 + digitVal c) 0

/-- Python `float(text)` on a stripped literal, modelled on the decimal
subset of the syntax Python accepts: optional sign, digits with an
optional fractional part (at least one digit overall), and an optional
exponent; values are exact rationals.  The special forms `inf`/`nan` and
underscore digit separators are outside this model. -/
def pyFloatCore (l : List Char) : Option ℚ :=
  let p0 : Int × List Char :=
    match l with
    | '-' :: r => (-1, r)
    | '+' :: r => (1, r)
    | r => (1, r)
  let p1 := takeDigits p0.2
  let p2 : List Char × List Char :=
    match p1.2 with
    | '.' :: r => takeDigits r
    | r => ([], r)
  if p1.1.isEmpty && p2.1.isEmpty then none
  else
    let num : Int :=
      p0.1 * ((charsVal p1.1 * 10 ^ p2.1.length + charsVal p2.1 : Nat) : Int)
    let den : Nat := 10 ^ p2.1.length
    match p2.2 with
    | [] => some (Rat.divInt num (den : Int))
    | e :: r =>
      if e = 'e' || e = 'E' then
        let q0 : Bool × List Char :=
          match r with
          | '-' :: rr => (true, rr)
          | '+' :: rr => (false, rr)
          | rr => (false, rr)
        let q1 := takeDigits q0.2
        if q1.1.isEmpty || !q1.2.isEmpty then none
        else if q0.1 then some (Rat.divInt num ((den * 10 ^ charsVal q1.1 : Nat) : Int))
        else some (Rat.divInt (num * ((10 ^ charsVal q1.1 : Nat) : Int)) (den : Int))
      else none

/-- Python `float(text)`: leading and trailing whitespace is stripped,
then the literal is parsed. -/
def pyFloat (l : List Char) : Option ℚ :=
  pyFloatCore ((l.dropWhile Char.isWhitespace).reverse.dropWhile
    Char.isWhitespace).reverse

/-- Innermost dictionary of `parse_resource_usage_header`:
limit string to used value. -/
abbrev LimitDict := List (String × ℚ)

/-- Middle dictionary: time span to `LimitDict`. -/
abbrev SpanDict := List (String × LimitDict)

/-- Outer dictionary: metric name to `SpanDict`. -/
abbrev UsageDict := List (String × SpanDict)

/-- Insertion-ordered association-list update matching Python dict
semantics: an existing key keeps its position and its value is updated
by `f`; a missing key is appended at the end with value `f dflt`
(`setdefault` followed by the update). -/
def assocUpdate {β : Type} (m : List (String × β)) (k : String) (dflt : β)
    (f : β → β) : List (String × β) :=
  match m with
  | [] => [(k, f dflt)]
  | (k0, v0) :: rest =>
    if k0 = k then (k0, f v0) :: rest
    else (k0, v0) :: assocUpdate rest k dflt f

/-- `result.setdefault(metric, {}).setdefault(time_span, {})[limit] = v`. -/
def insertUsage (m : UsageDict) (metric ts lim : String) (v : ℚ) : UsageDict :=
  assocUpdate m metric []
    (fun spans => assocUpdate spans ts []
      (fun lims => assocUpdate lims lim v (fun _ => v)))

/-- One loop iteration of `parse_resource_usage_header`, up to the dict
update: `right, left = line.split("=")`, `metric, time_span =
right.split("-")`, `used, limit = left.split("/")`, `float(used)`; any
unpacking mismatch or float failure is a `ValueError` (`none`). -/
def parseLine (line : List Char) : Option (String × String × String × ℚ) :=
  match splitOnChar '=' line with
  | [right, left] =>
    match splitOnChar '-' right with
    | [metric, time_span] =>
      match splitOnChar '/' left with
      | [used, lim] =>
        match pyFloat used with
        | some v => some (String.mk metric, String.mk time_span, String.mk lim, v)
        | none => none
      | _ => none
    | _ => none
  | _ => none

/-- The `for line in header.split(";")` loop: the first `ValueError`
aborts and the whole parse yields nothing. -/
def parseLinesAux : List (List Char) → UsageDict → Option UsageDict
  | [], acc => some acc
  | line :: rest, acc =>
    match parseLine line with
    | none => none
    | some (metric, ts, lim, v) => parseLinesAux rest (insertUsage acc metric ts lim v)

/-- `parse_resource_usage_header` from `rtbhouse_sdk/exceptions.py`; a
missing header is `none`, and a falsy (empty) header or any
`ValueError` during the loop yields the empty dict. -/
def parse_resource_usage_header (header : Option String) : UsageDict :=
  match header with
  | none => []
  | some h =>
    if h.toList.isEmpty then []
    else
      match parseLinesAux (splitOnChar ';' h.toList) [] with
      | none => []
      | some result => result

/-- A header is of the documented form `METRIC-window=used/limit;...`
when it is present, non-empty, and every `;`-separated piece parses. -/
def headerWellFormed (header : Option String) : Bool :=
  match header with
  | none => false
  | some h =>
    !h.toList.isEmpty && (splitOnChar ';' h.toList).all (fun line => (parseLine line).isSome)

/-! ### File-backed storage (`rtbhouse_sdk/api_tokens/storages.py`)

The filesystem is a map from paths to file contents.  `ApiToken`
serialization models pydantic `model_dump_json` / `model_validate_json`
with the `datetime` field as an integer timestamp (pydantic ISO-8601
serialization of `datetime` round-trips; here it is decimal integer
serialization): the file holds
`\x7b"token":"...","expires_at":...\x7d` with the token string escaped. -/

/-- JSON escaping of one character of the token string (quote and
backslash; other characters pass through). -/
def escapeChar (c : Char) : List Char :=
  if c = '"' || c = '\\' then ['\\', c] else [c]

/-- JSON escaping of the token string. -/
def escapeChars : List Char → List Char
  | [] => []
  | c :: r => escapeChar c ++ escapeChars r

/-- Parse a JSON string body up to its closing quote, undoing escapes;
returns the decoded characters and the input after the closing quote. -/
def parseQuoted : List Char → Option (List Char × List Char)
  | [] => none
  | c :: rest =>
    if c = '"' then some ([], rest)
    else if c = '\\' then
      match rest with
      | [] => none
      | d :: rest2 => (parseQuoted rest2).map (fun p => (d :: p.1, p.2))
    else (parseQuoted rest).map (fun p => (c :: p.1, p.2))
termination_by l => l.length
decreasing_by
  all_goals simp
  omega

/-- The ten decimal digit characters. -/
def digitChars : List Char := ['0', '1', '2', '3', '4', '5', '6', '7', '8', '9']

/-- The decimal digit character for a value below ten. -/
def digitChar10 (k : Nat) : Char := digitChars.getD k '0'

/-- Decimal digits of a natural number, least significant first. -/
def natToRevDigits (n : Nat) : List Char :=
  if n < 10 then [digitChar10 n]
  else digitChar10 (n % 10) :: natToRevDigits (n / 10)
termination_by n
decreasing_by exact Nat.div_lt_self (by omega) (by omega)

/-- Decimal representation of a natural number. -/
def natToChars (n : Nat) : List Char := (natToRevDigits n).reverse

/-- Decimal representation of an integer. -/
def intToChars (i : Int) : List Char :=
  if i < 0 then '-' :: natToChars i.natAbs else natToChars i.natAbs

/-- Parse a nonempty digit run into a natural number. -/
def parseNatChars (l : List Char) : Option (Nat × List Char) :=
  let p := takeDigits l
  if p.1.isEmpty then none else some (charsVal p.1, p.2)

/-- Parse an optionally negated digit run into an integer. -/
def parseIntChars (l : List Char) : Option (Int × List Char) :=
  if l.head? = some '-' then
    (parseNatChars l.tail).map (fun p => (-(p.1 : Int), p.2))
  else
    (parseNatChars l).map (fun p => ((p.1 : Int), p.2))

/-- Characters before the token string in the serialized record. -/
def jsonHead : List Char := "\x7b\"token\":\"".toList

/-- Characters between the token string and the expiry value. -/
def jsonSep : List Char := ",\"expires_at\":".toList

/-- `ApiToken.model_dump_json()`: the serialized credential record. -/
def model_dump_json (t : ApiToken) : String :=
  String.mk (jsonHead ++ (escapeChars t.token.toList ++
    ('"' :: (jsonSep ++ (intToChars t.expires_at ++ ['\x7d'])))))

/-- Drop an expected literal run of characters, failing on mismatch. -/
def dropLead : List Char → List Char → Option (List Char)
  | [], l => some l
  | _ :: _, [] => none
  | p :: ps, c :: cs => if c = p then dropLead ps cs else none

/-- `ApiToken.model_validate_json()`: parse a serialized credential
record, failing (`ValueError` in the source) on any malformed input. -/
def model_validate_json (s : String) : Option ApiToken :=
  match dropLead jsonHead s.toList with
  | none => none
  | some l1 =>
    match parseQuoted l1 with
    | none => none
    | some (tok, l2) =>
      match dropLead jsonSep l2 with
      | none => none
      | some l3 =>
        match parseIntChars l3 with
        | none => none
        | some (e, l4) =>
          if l4 = ['\x7d'] then some ⟨String.mk tok, e⟩ else none

/-- The filesystem: a map from paths to file contents. -/
def FileSystem := String → Option String

/-- `JsonFileApiTokenStorage`: the instance state is only the configured
path, so re-instantiating against the same path (a process restart)
yields an identical storage. -/
structure JsonFileApiTokenStorage where
  path : String

/-- `JsonFileApiTokenStorage.load`: read the canonical file
(`ApiTokenStorageException` when missing) and validate its contents
(`ApiTokenStorageException` when malformed). -/
def JsonFileApiTokenStorage.load (st : JsonFileApiTokenStorage)
    (fs : FileSystem) : Except SdkError ApiToken :=
  match fs st.path with
  | none =>
    .error (.storageError "JSON file does not exist. Please configure token first.")
  | some text =>
    match model_validate_json text with
    | none => .error (.storageError "Invalid API token JSON file format")
    | some t => .ok t

/-- A completed `_atomic_write_text`: the text is written to the fresh
temporary sibling `temp`, fsynced, chmodded, and `os.replace`d over
`path`; the `finally` block then removes `temp` (already moved, the
`FileNotFoundError` is swallowed). -/
def atomic_write_text (fs : FileSystem) (path temp text : String) : FileSystem :=
  fun p => if p = path then some text else if p = temp then none else fs p

/-- The `finally` block of `_atomic_write_text`: remove the temporary
file, swallowing errors. -/
def finallyCleanup (fs : FileSystem) (temp : String) : FileSystem :=
  fun p => if p = temp then none else fs p

/-- Where an interrupted `_atomic_write_text` failed: at `mkstemp`
(before the `try` block, no temporary file exists), during the
write/flush/fsync (a prefix of the text reached the temporary file), or
at `os.replace` itself (the temporary holds the full text but the
canonical path was not replaced).  A `chmod` failure is swallowed by the
source and is not an interruption. -/
inductive WriteInterrupt where
  | atMkstemp
  | duringWrite (written : Nat)
  | atReplace
deriving DecidableEq, Repr

/-- `_atomic_write_text` interrupted at `w`, including the `finally`
cleanup that runs when the failure is raised inside the `try`. -/
def atomic_write_interrupted (fs : FileSystem) (path temp text : String)
    (w : WriteInterrupt) : FileSystem :=
  match w with
  | .atMkstemp => fs
  | .duringWrite k =>
    finallyCleanup
      (fun p => if p = temp then some (String.mk (text.toList.take k)) else fs p) temp
  | .atReplace =>
    finallyCleanup (fun p => if p = temp then some text else fs p) temp

/-- `JsonFileApiTokenStorage.save`: serialize and atomically write. -/
def JsonFileApiTokenStorage.save (st : JsonFileApiTokenStorage)
    (fs : FileSystem) (temp : String) (t : ApiToken) : FileSystem :=
  atomic_write_text fs st.path temp (model_dump_json t)

/-! ### Concurrent `get_token` callers

`get_token` under N concurrent callers is modelled as an interleaving
transition system over a shared in-memory store.  Each caller first runs
the unlocked phase (load, expiry check, rotation-window check: lines
81-88 of `managers.py`), then — when the record is in the rotation
window — the locked phase (lines 90-121).  The locked phase is one
atomic transition: the manager-wide lock serializes it entirely, the
store is written only inside it, and the unlocked phase only reads the
store, so interleaving reads into the middle of a critical section
observes the same states as interleaving them before or after the write.
`utcnow()` is frozen at a single `now` for the burst of calls. -/

/-- The control state of one concurrent `get_token` caller. -/
inductive ProcState where
  | idle
  | awaitLock
  | done (r : Except SdkError String)
deriving DecidableEq, Repr

/-- The shared state: per-caller control states, the stored record, and
cumulative counts of issuer calls. -/
structure SysState where
  procs : List ProcState
  store : ApiToken
  heartbeats : Nat
  rotates : Nat
deriving DecidableEq, Repr

/-- Result of the locked region of `get_token` (lines 92-121 of
`managers.py`): reload, re-check expiry and window, heartbeat, then
rotate-and-save or return the cached token. -/
structure CritOutcome where
  result : Except SdkError String
  store : ApiToken
  heartbeats : Nat
  rotates : Nat
deriving DecidableEq, Repr

/-- The locked region of `get_token`, as a function of the reloaded
record. -/
def critical_section (st : ApiToken) (now : Int) (api : ApiTokensAPI) :
    CritOutcome :=
  if expired_check st now then ⟨.error (.tokenExpired EXPIRED_MSG), st, 0, 0⟩
  else if !(in_rotation_window st now) then ⟨.ok st.token, st, 0, 0⟩
  else
    let status := api.heartbeat st.token
    if status.is_expired then ⟨.error (.tokenExpired EXPIRED_MSG), st, 1, 0⟩
    else if !status.can_rotate then ⟨.ok st.token, st, 1, 0⟩
    else
      let rotated := api.rotate st.token
      ⟨.ok rotated.token, ⟨rotated.token, rotated.expires_at⟩, 1, 1⟩

/-- One interleaving step: some caller `i` either runs its unlocked
phase (three possible outcomes) or, having reached the lock, acquires it
and runs the whole locked region. -/
inductive Step (now : Int) (api : ApiTokensAPI) : SysState → SysState → Prop where
  | load_expired (s : SysState) (i : Nat)
      (hi : s.procs[i]? = some ProcState.idle)
      (hexp : expired_check s.store now = true) :
      Step now api s
        ⟨s.procs.set i (ProcState.done (.error (.tokenExpired EXPIRED_MSG))),
         s.store, s.heartbeats, s.rotates⟩
  | load_fast (s : SysState) (i : Nat)
      (hi : s.procs[i]? = some ProcState.idle)
      (hexp : expired_check s.store now = false)
      (hwin : in_rotation_window s.store now = false) :
      Step now api s
        ⟨s.procs.set i (ProcState.done (.ok s.store.token)),
         s.store, s.heartbeats, s.rotates⟩
  | load_slow (s : SysState) (i : Nat)
      (hi : s.procs[i]? = some ProcState.idle)
      (hexp : expired_check s.store now = false)
      (hwin : in_rotation_window s.store now = true) :
      Step now api s
        ⟨s.procs.set i ProcState.awaitLock, s.store, s.heartbeats, s.rotates⟩
  | locked (s : SysState) (i : Nat)
      (hi : s.procs[i]? = some ProcState.awaitLock) :
      Step now api s
        ⟨s.procs.set i (ProcState.done (critical_section s.store now api).result),
         (critical_section s.store now api).store,
         s.heartbeats + (critical_section s.store now api).heartbeats,
         s.rotates + (critical_section s.store now api).rotates⟩

/-- N callers about to invoke `get_token` on a store holding `t`. -/
def initState (n : Nat) (t : ApiToken) : SysState :=
  ⟨List.replicate n ProcState.idle, t, 0, 0⟩

/-- Whether a caller has returned (or raised). -/
def isDone : ProcState → Bool
  | .done _ => true
  | _ => false

/-- Every caller has completed its `get_token` call. -/
def allDone (s : SysState) : Bool := s.procs.all isDone

/-- The record produced by rotating `t` against `api`. -/
def rotatedToken (api : ApiTokensAPI) (t : ApiToken) : ApiToken :=
  ⟨(api.rotate t.token).token, (api.rotate t.token).expires_at⟩

/-- Invariant for the single-rotation argument: before any rotation the
store still holds `t`, no caller has finished and no issuer call was
made; after the (single) rotation the store holds the rotated record and
every finished caller got the rotated token. -/
def C1Inv (api : ApiTokensAPI) (t : ApiToken) (n : Nat) (s : SysState) : Prop :=
  s.procs.length = n ∧
  ((s.rotates = 0 ∧ s.store = t ∧
      ∀ p ∈ s.procs, p = ProcState.idle ∨ p = ProcState.awaitLock) ∨
   (s.rotates = 1 ∧ s.store = rotatedToken api t ∧
      ∀ p ∈ s.procs, p = ProcState.idle ∨ p = ProcState.awaitLock ∨
        p = ProcState.done (.ok (rotatedToken api t).token)))

/-- An issuer whose rotation hands out a token that is itself still
inside the rotation window (expires in 2 days) and keeps reporting
`can_rotate = true` — the issuer behaviour that breaks the
exactly-one-rotation property. -/
def shortRotateApi : ApiTokensAPI :=
  ⟨fun _ => ⟨172800, false, true⟩,
   fun s => if s = "old" then ⟨"new", 172800⟩ else ⟨"new2", 172800⟩⟩

/-- An issuer whose rotation hands out a fresh 14-day token. -/
def freshRotateApi : ApiTokensAPI :=
  ⟨fun _ => ⟨172800, false, true⟩, fun _ => ⟨"new", 1209600⟩⟩

/-! ## Theorems -/

/-- Helper: a record strictly more than `ROTATION_WINDOW` before expiry
takes the fast path of `get_token`: the cached token is returned with no
heartbeat, no rotate, no warning and no lock acquisition, and storage is
unchanged. -/
theorem get_token_fresh_aux (t : ApiToken) (now : Int) (api : ApiTokensAPI)
    (h : now < t.expires_at - ROTATION_WINDOW) :
    get_token (some t) now api = ⟨.ok t.token, some t, 0, 0, 0, false⟩ := by
  have h1 : expired_check t now = false := by
    simp only [expired_check, decide_eq_false_iff_not, not_le]
    simp only [ROTATION_WINDOW, secondsPerDay] at h
    simp only [EXPIRATION_MARGIN, secondsPerMinute]
    omega
  have h2 : in_rotation_window t now = false := by
    simp only [in_rotation_window, decide_eq_false_iff_not, not_le]
    simp only [ROTATION_WINDOW, secondsPerDay] at h ⊢
    omega
  simp [get_token, h1, h2]

/-- C2: for a stored record with `now ≥ expires_at - EXPIRATION_MARGIN`,
both `get_token()` and `keep_alive()` raise the expiry error with the
same fixed `EXPIRED_MSG` message, make no heartbeat or rotate call (so
the outcome cannot depend on the issuer, over which the statement is
universally quantified) and leave the stored record unchanged. -/
theorem expired_record_raises (t : ApiToken) (now : Int) (api : ApiTokensAPI)
    (h : now ≥ t.expires_at - EXPIRATION_MARGIN) :
    get_token (some t) now api =
      ⟨.error (.tokenExpired EXPIRED_MSG), some t, 0, 0, 0, false⟩ ∧
    keep_alive (some t) now api =
      ⟨.error (.tokenExpired EXPIRED_MSG), some t, 0, 0, 0⟩ := by
  have h1 : expired_check t now = true := by
    simp only [expired_check, decide_eq_true_eq]
    exact h
  constructor
  · simp [get_token, h1]
  · simp [keep_alive, h1]

/-- Witness for `expired_record_raises` at a concrete expired record. -/
theorem expired_record_raises_witness :
    get_token (some ⟨"a", 0⟩) 0 sampleApi =
      ⟨.error (.tokenExpired EXPIRED_MSG), some ⟨"a", 0⟩, 0, 0, 0, false⟩ ∧
    keep_alive (some ⟨"a", 0⟩) 0 sampleApi =
      ⟨.error (.tokenExpired EXPIRED_MSG), some ⟨"a", 0⟩, 0, 0, 0⟩ :=
  expired_record_raises ⟨"a", 0⟩ 0 sampleApi (by decide)

/-- C3: for a stored record whose expiry lies strictly more than
`ROTATION_WINDOW` after `now`, `get_token()` returns the stored token,
performs no heartbeat and no rotate call, acquires no lock, and leaves
storage unchanged (the fast path). -/
theorem fresh_record_fast_path (t : ApiToken) (now : Int) (api : ApiTokensAPI)
    (h : now < t.expires_at - ROTATION_WINDOW) :
    get_token (some t) now api = ⟨.ok t.token, some t, 0, 0, 0, false⟩ :=
  get_token_fresh_aux t now api h

/-- Witness for `fresh_record_fast_path` at a record expiring at day 10. -/
theorem fresh_record_fast_path_witness :
    get_token (some ⟨"abc", 864000⟩) 0 sampleApi =
      ⟨.ok "abc", some ⟨"abc", 864000⟩, 0, 0, 0, false⟩ :=
  fresh_record_fast_path ⟨"abc", 864000⟩ 0 sampleApi (by decide)

/-- C4: for a stored record inside the rotation window and not expired,
if the heartbeat reports valid and rotatable then `get_token()` returns
the rotated token and storage afterwards holds exactly the rotated
record; one heartbeat and one rotate call are made under the lock. -/
theorem rotation_window_rotates (t : ApiToken) (now : Int) (api : ApiTokensAPI)
    (hwin : now ≥ t.expires_at - ROTATION_WINDOW)
    (hexp : now < t.expires_at - EXPIRATION_MARGIN)
    (hhb : (api.heartbeat t.token).is_expired = false)
    (hcr : (api.heartbeat t.token).can_rotate = true) :
    get_token (some t) now api =
      ⟨.ok (api.rotate t.token).token,
       some ⟨(api.rotate t.token).token, (api.rotate t.token).expires_at⟩,
       1, 1, 0, true⟩ := by
  have h1 : expired_check t now = false := by
    simp only [expired_check, decide_eq_false_iff_not, not_le]
    omega
  have h2 : in_rotation_window t now = true := by
    simp only [in_rotation_window, decide_eq_true_eq]
    exact hwin
  simp [get_token, h1, h2, hhb, hcr]

/-- Witness for `rotation_window_rotates`: the spec scenario — a record
expiring in 2 days, rotate returning ("xyz", day 14) — yields token
"xyz" with storage holding exactly that record. -/
theorem rotation_window_rotates_witness :
    get_token (some ⟨"abc", 172800⟩) 0 rotateScenarioApi =
      ⟨.ok "xyz", some ⟨"xyz", 1209600⟩, 1, 1, 0, true⟩ :=
  rotation_window_rotates ⟨"abc", 172800⟩ 0 rotateScenarioApi
    (by decide) (by decide) rfl rfl

/-- C5: for a stored record inside the rotation window and not expired,
if the heartbeat reports valid but not rotatable then `get_token()`
returns the original stored token, emits exactly one warning, makes no
rotate call, and leaves storage unchanged. -/
theorem rotation_refused_warns (t : ApiToken) (now : Int) (api : ApiTokensAPI)
    (hwin : now ≥ t.expires_at - ROTATION_WINDOW)
    (hexp : now < t.expires_at - EXPIRATION_MARGIN)
    (hhb : (api.heartbeat t.token).is_expired = false)
    (hcr : (api.heartbeat t.token).can_rotate = false) :
    get_token (some t) now api = ⟨.ok t.token, some t, 1, 0, 1, true⟩ := by
  have h1 : expired_check t now = false := by
    simp only [expired_check, decide_eq_false_iff_not, not_le]
    omega
  have h2 : in_rotation_window t now = true := by
    simp only [in_rotation_window, decide_eq_true_eq]
    exact hwin
  simp [get_token, h1, h2, hhb, hcr]

/-- Witness for `rotation_refused_warns` at a record expiring in 2 days
with a refusing issuer. -/
theorem rotation_refused_warns_witness :
    get_token (some ⟨"abc", 172800⟩) 0 refuseScenarioApi =
      ⟨.ok "abc", some ⟨"abc", 172800⟩, 1, 0, 1, true⟩ :=
  rotation_refused_warns ⟨"abc", 172800⟩ 0 refuseScenarioApi
    (by decide) (by decide) rfl rfl

/-- C6: `configure(t)` heartbeats `t`; if the issuer reports it expired
it raises the expiry error and writes nothing, otherwise it persists the
record built from `t` and the heartbeat expiry; and when that expiry is
10 days after `now`, an immediately following `get_token()` returns `t`. -/
theorem configure_heartbeats_and_persists (token : String) (st : Option ApiToken)
    (api : ApiTokensAPI) (now : Int) :
    ((api.heartbeat token).is_expired = true →
      configure token st api = ⟨.error (.tokenExpired EXPIRED_MSG), st, 1⟩) ∧
    ((api.heartbeat token).is_expired = false →
      configure token st api =
        ⟨.ok (), some ⟨token, (api.heartbeat token).expires_at⟩, 1⟩ ∧
      ((api.heartbeat token).expires_at = now + 10 * secondsPerDay →
        get_token (some ⟨token, (api.heartbeat token).expires_at⟩) now api =
          ⟨.ok token, some ⟨token, (api.heartbeat token).expires_at⟩,
           0, 0, 0, false⟩)) := by
  refine ⟨fun h => by simp [configure, h], fun h => ⟨by simp [configure, h], fun he => ?_⟩⟩
  exact get_token_fresh_aux ⟨token, (api.heartbeat token).expires_at⟩ now api
    (by simp only [he, ROTATION_WINDOW, secondsPerDay]; omega)

/-- Witness for `configure_heartbeats_and_persists`: the spec scenario —
configure with "abc", heartbeat reporting expiry at day 10 — persists
("abc", day 10) and the following `get_token()` returns "abc". -/
theorem configure_heartbeats_and_persists_witness :
    configure "abc" none configScenarioApi = ⟨.ok (), some ⟨"abc", 864000⟩, 1⟩ ∧
    get_token (some ⟨"abc", 864000⟩) 0 configScenarioApi =
      ⟨.ok "abc", some ⟨"abc", 864000⟩, 0, 0, 0, false⟩ :=
  ⟨((configure_heartbeats_and_persists "abc" none configScenarioApi 0).2 rfl).1,
   ((configure_heartbeats_and_persists "abc" none configScenarioApi 0).2 rfl).2 (by decide)⟩

/-- C10: if `keep_alive()` loads a record not in the rotation window and
the heartbeat reports valid but not rotatable, it returns normally with
no warning, no rotate call and unchanged storage; and in general the
refused-rotation warning is emitted only for records inside the rotation
window. -/
theorem keep_alive_fresh_silent (t : ApiToken) (now : Int) (api : ApiTokensAPI)
    (hfresh : now < t.expires_at - ROTATION_WINDOW)
    (hhb : (api.heartbeat t.token).is_expired = false)
    (hcr : (api.heartbeat t.token).can_rotate = false) :
    keep_alive (some t) now api = ⟨.ok (), some t, 1, 0, 0⟩ ∧
    (∀ (u : ApiToken) (m : Int) (a : ApiTokensAPI),
      0 < (keep_alive (some u) m a).warnings → in_rotation_window u m = true) := by
  constructor
  · have h1 : expired_check t now = false := by
      simp only [expired_check, decide_eq_false_iff_not, not_le]
      simp only [ROTATION_WINDOW, secondsPerDay] at hfresh
      simp only [EXPIRATION_MARGIN, secondsPerMinute]
      omega
    have h2 : in_rotation_window t now = false := by
      simp only [in_rotation_window, decide_eq_false_iff_not, not_le]
      simp only [ROTATION_WINDOW, secondsPerDay] at hfresh ⊢
      omega
    simp [keep_alive, h1, hhb, hcr, h2]
  · intro u m a hw
    by_cases h1 : expired_check u m = true
    · simp [keep_alive, h1] at hw
    · by_cases h2 : (a.heartbeat u.token).is_expired = true
      · simp [keep_alive, h1, h2] at hw
      · by_cases h3 : (a.heartbeat u.token).can_rotate = true
        · simp [keep_alive, h1, h2, h3] at hw
        · by_cases h4 : in_rotation_window u m = true
          · exact h4
          · simp [keep_alive, h1, h2, h3, h4] at hw

/-- Helper: if any `;`-separated piece fails to parse, the loop aborts
with a `ValueError`, whatever has been accumulated so far. -/
theorem parseLinesAux_eq_none (lines : List (List Char)) (acc : UsageDict)
    (h : lines.all (fun line => (parseLine line).isSome) = false) :
    parseLinesAux lines acc = none := by
  induction lines generalizing acc with
  | nil => simp at h
  | cons hd tl ih =>
    simp only [List.all_cons, Bool.and_eq_false_iff] at h
    cases hp : parseLine hd with
    | none => simp [parseLinesAux, hp]
    | some v =>
      rcases h with h | h
      · rw [hp] at h; simp at h
      · obtain ⟨metric, ts, lim, q⟩ := v
        simp only [parseLinesAux, hp]
        exact ih _ h

/-- C9: the documented rate-limit header parses to the documented nested
map, and any missing, empty or malformed header degrades to the empty
map instead of failing. -/
theorem parse_resource_usage_header_spec :
    parse_resource_usage_header
        (some "WORKER_TIME-3600=11.78/10000000;DB_QUERY_TIME-86400=17.995/5000") =
      [("WORKER_TIME", [("3600", [("10000000", Rat.divInt 1178 100)])]),
       ("DB_QUERY_TIME", [("86400", [("5000", Rat.divInt 17995 1000)])])] ∧
    parse_resource_usage_header none = [] ∧
    parse_resource_usage_header (some "") = [] ∧
    (∀ h : Option String,
      headerWellFormed h = false → parse_resource_usage_header h = []) := by
  refine ⟨by decide, rfl, by decide, ?_⟩
  intro h hw
  cases h with
  | none => rfl
  | some s =>
    show (if s.toList.isEmpty then ([] : UsageDict)
      else match parseLinesAux (splitOnChar ';' s.toList) [] with
        | none => []
        | some result => result) = []
    by_cases he : s.toList.isEmpty = true
    · rw [if_pos he]
    · simp only [headerWellFormed, Bool.and_eq_false_iff, Bool.not_eq_false'] at hw
      rcases hw with hw | hw
      · exact absurd hw he
      · rw [if_neg he, parseLinesAux_eq_none (splitOnChar ';' s.toList) [] hw]

/-- Witness for `parse_resource_usage_header_spec`: closed instantiation
on a malformed header. -/
theorem parse_resource_usage_header_spec_witness :
    parse_resource_usage_header
        (some "WORKER_TIME-3600=11.78/10000000;DB_QUERY_TIME-86400=17.995/5000") =
      [("WORKER_TIME", [("3600", [("10000000", Rat.divInt 1178 100)])]),
       ("DB_QUERY_TIME", [("86400", [("5000", Rat.divInt 17995 1000)])])] ∧
    parse_resource_usage_header (some "garbage") = [] :=
  ⟨parse_resource_usage_header_spec.1,
   parse_resource_usage_header_spec.2.2.2 (some "garbage") (by decide)⟩

/-- Witness for `keep_alive_fresh_silent` at a record expiring at day 10
with a refusing issuer. -/
theorem keep_alive_fresh_silent_witness :
    keep_alive (some ⟨"abc", 864000⟩) 0 refuseScenarioApi =
      ⟨.ok (), some ⟨"abc", 864000⟩, 1, 0, 0⟩ ∧
    in_rotation_window ⟨"w", 172800⟩ 0 = true :=
  ⟨(keep_alive_fresh_silent ⟨"abc", 864000⟩ 0 refuseScenarioApi (by decide) rfl rfl).1,
   (keep_alive_fresh_silent ⟨"abc", 864000⟩ 0 refuseScenarioApi (by decide) rfl rfl).2
     ⟨"w", 172800⟩ 0 refuseScenarioApi (by decide)⟩

/-! ### Storage lemmas -/

theorem dropLead_append (p l : List Char) : dropLead p (p ++ l) = some l := by
  induction p with
  | nil => rfl
  | cons c cs ih => simp [dropLead, ih]

theorem parseQuoted_escape (tok rest : List Char) :
    parseQuoted (escapeChars tok ++ '"' :: rest) = some (tok, rest) := by
  induction tok with
  | nil =>
    simp only [escapeChars, List.nil_append]
    rw [parseQuoted.eq_def]
    simp
  | cons c cs ih =>
    by_cases h : c = '"' || c = '\\'
    · simp only [escapeChars, escapeChar, h, if_true, List.cons_append, List.append_assoc]
      rw [parseQuoted.eq_def]
      simp [ih]
    · simp only [escapeChars, escapeChar, h, if_false, List.cons_append,
        List.singleton_append]
      rw [parseQuoted.eq_def]
      simp only [Bool.or_eq_true, decide_eq_true_eq] at h
      push_neg at h
      simp [h.1, h.2, ih]

theorem digitChar10_isDigit (k : Nat) (h : k < 10) :
    (digitChar10 k).isDigit = true := by
  interval_cases k <;> decide

theorem digitVal_digitChar10 (k : Nat) (h : k < 10) :
    digitVal (digitChar10 k) = k := by
  interval_cases k <;> decide

theorem natToRevDigits_ne_nil (n : Nat) : natToRevDigits n ≠ [] := by
  rw [natToRevDigits]
  split <;> simp

theorem natToRevDigits_digits (n : Nat) :
    ∀ c ∈ natToRevDigits n, c.isDigit = true := by
  induction n using Nat.strong_induction_on with
  | _ n ih =>
    rw [natToRevDigits]
    split
    · intro c hc
      simp only [List.mem_singleton] at hc
      subst hc
      exact digitChar10_isDigit n (by omega)
    · intro c hc
      rcases List.mem_cons.mp hc with hc | hc
      · subst hc
        exact digitChar10_isDigit _ (Nat.mod_lt _ (by omega))
      · exact ih (n / 10) (Nat.div_lt_self (by omega) (by omega)) c hc

theorem foldl_natToChars (n : Nat) :
    ∀ a : Nat, List.foldl (fun a c => a * 10 + digitVal c) a (natToChars n) =
      a * 10 ^ (natToChars n).length + n := by
  induction n using Nat.strong_induction_on with
  | _ n ih =>
    intro a
    unfold natToChars
    rw [natToRevDigits]
    split
    · simp [digitVal_digitChar10 n (by omega)]
    · rename_i hn
      simp only [List.reverse_cons, List.foldl_append, List.foldl_cons, List.foldl_nil,
        List.length_append, List.length_reverse, List.length_cons, List.length_nil]
      rw [show (natToRevDigits (n / 10)).reverse = natToChars (n / 10) from rfl]
      rw [ih (n / 10) (Nat.div_lt_self (by omega) (by omega)) a]
      rw [digitVal_digitChar10 _ (Nat.mod_lt _ (by omega))]
      have hlen : (natToChars (n / 10)).length = (natToRevDigits (n / 10)).length := by
        simp [natToChars]
      rw [hlen]
      have := Nat.div_add_mod n 10
      ring_nf
      omega

theorem charsVal_natToChars (n : Nat) : charsVal (natToChars n) = n := by
  have := foldl_natToChars n 0
  simpa [charsVal] using this

theorem takeDigits_append (l rest : List Char)
    (hl : ∀ c ∈ l, c.isDigit = true)
    (hrest : ∀ c, rest.head? = some c → c.isDigit = false) :
    takeDigits (l ++ rest) = (l, rest) := by
  induction l with
  | nil =>
    cases rest with
    | nil => rfl
    | cons c r =>
      have := hrest c rfl
      simp [takeDigits, this]
  | cons c cs ih =>
    have hc : c.isDigit = true := hl c (List.mem_cons_self c cs)
    simp only [List.cons_append, takeDigits, hc, if_true, List.append_eq]
    rw [ih (fun d hd => hl d (List.mem_cons_of_mem c hd))]

theorem parseNatChars_natToChars (n : Nat) (rest : List Char)
    (hrest : ∀ c, rest.head? = some c → c.isDigit = false) :
    parseNatChars (natToChars n ++ rest) = some (n, rest) := by
  unfold parseNatChars
  rw [takeDigits_append (natToChars n) rest
    (fun c hc => natToRevDigits_digits n c (List.mem_reverse.mp hc)) hrest]
  have hne : (natToChars n).isEmpty = false := by
    unfold natToChars
    cases h : natToRevDigits n with
    | nil => exact absurd h (natToRevDigits_ne_nil n)
    | cons c cs => simp [h]
  simp [hne, charsVal_natToChars]

theorem natToChars_head_digit (n : Nat) (c : Char) (cs : List Char)
    (h : natToChars n = c :: cs) : c.isDigit = true := by
  have hm : c ∈ natToChars n := by
    rw [h]
    exact List.mem_cons_self c cs
  exact natToRevDigits_digits n c (List.mem_reverse.mp (by simpa [natToChars] using hm))

theorem parseIntChars_intToChars (i : Int) (rest : List Char)
    (hrest : ∀ c, rest.head? = some c → c.isDigit = false) :
    parseIntChars (intToChars i ++ rest) = some (i, rest) := by
  unfold intToChars parseIntChars
  by_cases h : i < 0
  · simp only [h, if_true, List.cons_append, List.head?_cons, Option.some.injEq,
      if_pos rfl, List.tail_cons]
    rw [parseNatChars_natToChars _ _ hrest, Option.map_some']
    simp only [Option.some.injEq, Prod.mk.injEq]
    exact ⟨by omega, trivial⟩
  · obtain ⟨c, cs, hc⟩ : ∃ c cs, natToChars i.natAbs = c :: cs := by
      cases hh : natToChars i.natAbs with
      | nil =>
        exact absurd (by simpa [natToChars] using hh) (natToRevDigits_ne_nil i.natAbs)
      | cons c cs => exact ⟨c, cs, rfl⟩
    have hd : c.isDigit = true := natToChars_head_digit _ _ _ hc
    have hcne : c ≠ '-' := by
      intro hcc
      rw [hcc] at hd
      exact absurd hd (by decide)
    simp only [h, if_false, hc, List.cons_append, List.head?_cons]
    rw [if_neg (by simpa using hcne)]
    rw [show c :: (cs ++ rest) = natToChars i.natAbs ++ rest by
      rw [hc, List.cons_append]]
    rw [parseNatChars_natToChars _ _ hrest, Option.map_some']
    simp only [Option.some.injEq, Prod.mk.injEq]
    exact ⟨by omega, trivial⟩

theorem model_validate_dump (t : ApiToken) :
    model_validate_json (model_dump_json t) = some t := by
  obtain ⟨⟨tl⟩, e⟩ := t
  unfold model_dump_json model_validate_json
  rw [show (String.mk (jsonHead ++ (escapeChars (String.mk tl).toList ++
      ('"' :: (jsonSep ++ (intToChars e ++ ['\x7d'])))))).toList =
      jsonHead ++ (escapeChars tl ++
      ('"' :: (jsonSep ++ (intToChars e ++ ['\x7d'])))) from rfl]
  have hbrace : ∀ c, (['\x7d'] : List Char).head? = some c → c.isDigit = false := by
    intro c hc
    simp only [List.head?_cons, Option.some.injEq] at hc
    subst hc
    decide
  simp only [dropLead_append, parseQuoted_escape,
    parseIntChars_intToChars e ['\x7d'] hbrace]
  simp

/-- C8: a `save(record)` on a `JsonFileApiTokenStorage` followed by a
`load()` by a freshly constructed storage against the same path (the
storage instance carries only its path, so this also models a process
restart) returns the saved record field-for-field, for every record and
every prior filesystem state. -/
theorem storage_save_load_roundtrip (t : ApiToken) (fs : FileSystem)
    (path temp : String) :
    JsonFileApiTokenStorage.load ⟨path⟩
      (JsonFileApiTokenStorage.save ⟨path⟩ fs temp t) = .ok t := by
  unfold JsonFileApiTokenStorage.load JsonFileApiTokenStorage.save atomic_write_text
  simp [model_validate_dump]

/-- C7: an `_atomic_write_text` interrupted at any point before the
final `os.replace` completes leaves the canonical path untouched (the
previous record, or nothing, never a truncated or hybrid file), removes
the temporary file, and a subsequent `load()` behaves exactly as before
the interrupted save — in particular it fails with the storage-missing
error when no record existed. -/
theorem save_interrupted_safe (fs : FileSystem) (path temp : String)
    (t : ApiToken) (w : WriteInterrupt)
    (hne : temp ≠ path) (hfresh : fs temp = none) :
    atomic_write_interrupted fs path temp (model_dump_json t) w path = fs path ∧
    atomic_write_interrupted fs path temp (model_dump_json t) w temp = none ∧
    JsonFileApiTokenStorage.load ⟨path⟩
        (atomic_write_interrupted fs path temp (model_dump_json t) w) =
      JsonFileApiTokenStorage.load ⟨path⟩ fs ∧
    (fs path = none →
      JsonFileApiTokenStorage.load ⟨path⟩
          (atomic_write_interrupted fs path temp (model_dump_json t) w) =
        .error (.storageError
          "JSON file does not exist. Please configure token first.")) := by
  have hpne : path ≠ temp := fun h => hne h.symm
  have hpath : atomic_write_interrupted fs path temp (model_dump_json t) w path = fs path := by
    cases w <;> simp [atomic_write_interrupted, finallyCleanup, hpne]
  have htemp : atomic_write_interrupted fs path temp (model_dump_json t) w temp = none := by
    cases w <;> simp [atomic_write_interrupted, finallyCleanup, hfresh]
  refine ⟨hpath, htemp, ?_, ?_⟩
  · unfold JsonFileApiTokenStorage.load
    rw [hpath]
  · intro hnone
    unfold JsonFileApiTokenStorage.load
    rw [hpath, hnone]

/-- Witness for `save_interrupted_safe` on a concrete empty filesystem,
interrupted mid-write. -/
theorem save_interrupted_safe_witness :
    atomic_write_interrupted (fun _ => none) "a" "b"
        (model_dump_json ⟨"x", 5⟩) (.duringWrite 1) "a" = none ∧
    atomic_write_interrupted (fun _ => none) "a" "b"
        (model_dump_json ⟨"x", 5⟩) (.duringWrite 1) "b" = none ∧
    JsonFileApiTokenStorage.load ⟨"a"⟩
        (atomic_write_interrupted (fun _ => none) "a" "b"
          (model_dump_json ⟨"x", 5⟩) (.duringWrite 1)) =
      JsonFileApiTokenStorage.load ⟨"a"⟩ (fun _ => none) ∧
    JsonFileApiTokenStorage.load ⟨"a"⟩
        (atomic_write_interrupted (fun _ => none) "a" "b"
          (model_dump_json ⟨"x", 5⟩) (.duringWrite 1)) =
      .error (.storageError
        "JSON file does not exist. Please configure token first.") := by
  have h := save_interrupted_safe (fun _ => none) "a" "b" ⟨"x", 5⟩
    (.duringWrite 1) (by decide) rfl
  exact ⟨h.1, h.2.1, h.2.2.1, h.2.2.2 rfl⟩

/-! ### Concurrency lemmas -/

theorem C1Inv_step (now : Int) (api : ApiTokensAPI) (t : ApiToken) (n : Nat)
    (hwin : in_rotation_window t now = true)
    (hexp : expired_check t now = false)
    (hhb : (api.heartbeat t.token).is_expired = false)
    (hcr : (api.heartbeat t.token).can_rotate = true)
    (hfresh : in_rotation_window (rotatedToken api t) now = false)
    (s s' : SysState) (hs : C1Inv api t n s) (hstep : Step now api s s') :
    C1Inv api t n s' := by
  have hexpNew : expired_check (rotatedToken api t) now = false := by
    simp only [expired_check, in_rotation_window, decide_eq_false_iff_not,
      not_le] at hfresh ⊢
    simp only [ROTATION_WINDOW, EXPIRATION_MARGIN, secondsPerDay,
      secondsPerMinute] at hfresh ⊢
    omega
  have hcsT : critical_section t now api =
      ⟨.ok (rotatedToken api t).token, rotatedToken api t, 1, 1⟩ := by
    simp [critical_section, hexp, hwin, hhb, hcr, rotatedToken]
  have hcsNew : critical_section (rotatedToken api t) now api =
      ⟨.ok (rotatedToken api t).token, rotatedToken api t, 0, 0⟩ := by
    simp [critical_section, hexpNew, hfresh]
  obtain ⟨hlen, hcase⟩ := hs
  cases hstep with
  | load_expired i hi hx =>
    rcases hcase with ⟨hr, hst, hall⟩ | ⟨hr, hst, hall⟩
    · rw [hst, hexp] at hx
      cases hx
    · rw [hst, hexpNew] at hx
      cases hx
  | load_fast i hi hx hw =>
    rcases hcase with ⟨hr, hst, hall⟩ | ⟨hr, hst, hall⟩
    · rw [hst, hwin] at hw
      cases hw
    · refine ⟨by simpa using hlen, Or.inr ⟨hr, hst, ?_⟩⟩
      intro p hp
      rcases List.mem_or_eq_of_mem_set hp with hp | hp
      · exact hall p hp
      · right; right
        rw [hp, hst]
  | load_slow i hi hx hw =>
    rcases hcase with ⟨hr, hst, hall⟩ | ⟨hr, hst, hall⟩
    · refine ⟨by simpa using hlen, Or.inl ⟨hr, hst, ?_⟩⟩
      intro p hp
      rcases List.mem_or_eq_of_mem_set hp with hp | hp
      · exact hall p hp
      · right; exact hp
    · rw [hst, hfresh] at hw
      cases hw
  | locked i hi =>
    rcases hcase with ⟨hr, hst, hall⟩ | ⟨hr, hst, hall⟩
    · rw [hst]
      refine ⟨by simpa using hlen, Or.inr ⟨?_, ?_, ?_⟩⟩
      · simp [hcsT, hr]
      · simp [hcsT]
      · intro p hp
        rcases List.mem_or_eq_of_mem_set hp with hp | hp
        · rcases hall p hp with h | h
          · left; exact h
          · right; left; exact h
        · right; right
          rw [hp]
          simp [hcsT]
    · rw [hst]
      refine ⟨by simpa using hlen, Or.inr ⟨?_, ?_, ?_⟩⟩
      · simp [hcsNew, hr]
      · simp [hcsNew]
      · intro p hp
        rcases List.mem_or_eq_of_mem_set hp with hp | hp
        · exact hall p hp
        · right; right
          rw [hp]
          simp [hcsNew]

theorem C1Inv_reachable (now : Int) (api : ApiTokensAPI) (t : ApiToken) (n : Nat)
    (hwin : in_rotation_window t now = true)
    (hexp : expired_check t now = false)
    (hhb : (api.heartbeat t.token).is_expired = false)
    (hcr : (api.heartbeat t.token).can_rotate = true)
    (hfresh : in_rotation_window (rotatedToken api t) now = false)
    (s : SysState)
    (hreach : Relation.ReflTransGen (Step now api) (initState n t) s) :
    C1Inv api t n s := by
  induction hreach with
  | refl =>
    refine ⟨by simp [initState], Or.inl ⟨rfl, rfl, ?_⟩⟩
    intro p hp
    left
    exact List.eq_of_mem_replicate hp
  | tail hr hstep ih =>
    exact C1Inv_step now api t n hwin hexp hhb hcr hfresh _ _ ih hstep

/-- C1 counterexample: the premises of the claim hold (stored record in
the rotation window, not expired, heartbeat reporting `can_rotate =
true`), yet a complete execution of two concurrent `get_token` callers
makes two rotate calls — because the issuer rotates to a token that is
itself still inside the rotation window, so the second caller's
re-check under the lock triggers a second rotation.  This refutes the
claim as stated (exactly one rotate call in every such execution). -/
theorem get_token_concurrent_counterexample :
    in_rotation_window ⟨"old", 172800⟩ 0 = true ∧
    expired_check ⟨"old", 172800⟩ 0 = false ∧
    (shortRotateApi.heartbeat "old").is_expired = false ∧
    (shortRotateApi.heartbeat "old").can_rotate = true ∧
    ∃ s : SysState,
      Relation.ReflTransGen (Step 0 shortRotateApi)
        (initState 2 ⟨"old", 172800⟩) s ∧
      allDone s = true ∧ s.rotates = 2 := by
  refine ⟨by decide, by decide, rfl, rfl, ?_⟩
  have st1 : Step 0 shortRotateApi (initState 2 ⟨"old", 172800⟩)
      ⟨[ProcState.awaitLock, ProcState.idle], ⟨"old", 172800⟩, 0, 0⟩ :=
    Step.load_slow _ 0 rfl (by decide) (by decide)
  have st2 : Step 0 shortRotateApi
      ⟨[ProcState.awaitLock, ProcState.idle], ⟨"old", 172800⟩, 0, 0⟩
      ⟨[ProcState.done (.ok "new"), ProcState.idle], ⟨"new", 172800⟩, 1, 1⟩ :=
    Step.locked _ 0 rfl
  have st3 : Step 0 shortRotateApi
      ⟨[ProcState.done (.ok "new"), ProcState.idle], ⟨"new", 172800⟩, 1, 1⟩
      ⟨[ProcState.done (.ok "new"), ProcState.awaitLock], ⟨"new", 172800⟩, 1, 1⟩ :=
    Step.load_slow _ 1 rfl (by decide) (by decide)
  have st4 : Step 0 shortRotateApi
      ⟨[ProcState.done (.ok "new"), ProcState.awaitLock], ⟨"new", 172800⟩, 1, 1⟩
      ⟨[ProcState.done (.ok "new"), ProcState.done (.ok "new2")],
        ⟨"new2", 172800⟩, 2, 2⟩ :=
    Step.locked _ 1 rfl
  exact ⟨_,
    Relation.ReflTransGen.tail
      (Relation.ReflTransGen.tail
        (Relation.ReflTransGen.tail (Relation.ReflTransGen.single st1) st2) st3)
      st4,
    rfl, rfl⟩

/-- C1 (amended): when additionally the record the issuer rotates to is
itself out of the rotation window (a fresh token), every complete
execution of N concurrent `get_token` callers on a store whose record
is in the rotation window, not expired, and rotatable per the
heartbeat, makes exactly one rotate call, leaves the rotated record in
the store, and every caller returns the rotated token. -/
theorem get_token_concurrent_single_rotation
    (now : Int) (api : ApiTokensAPI) (t : ApiToken) (n : Nat) (s : SysState)
    (hn : 0 < n)
    (hwin : in_rotation_window t now = true)
    (hexp : expired_check t now = false)
    (hhb : (api.heartbeat t.token).is_expired = false)
    (hcr : (api.heartbeat t.token).can_rotate = true)
    (hfresh : in_rotation_window (rotatedToken api t) now = false)
    (hreach : Relation.ReflTransGen (Step now api) (initState n t) s)
    (hdone : allDone s = true) :
    s.rotates = 1 ∧ s.store = rotatedToken api t ∧
    ∀ p ∈ s.procs, p = ProcState.done (.ok (rotatedToken api t).token) := by
  obtain ⟨hlen, hcase⟩ :=
    C1Inv_reachable now api t n hwin hexp hhb hcr hfresh s hreach
  have hallDone : ∀ p ∈ s.procs, isDone p = true := by
    simpa [allDone, List.all_eq_true] using hdone
  rcases hcase with ⟨hr, hst, hall⟩ | ⟨hr, hst, hall⟩
  · exfalso
    cases hp : s.procs with
    | nil =>
      rw [hp] at hlen
      simp at hlen
      omega
    | cons p rest =>
      have hm : p ∈ s.procs := by
        rw [hp]
        exact List.mem_cons_self _ _
      have hd := hallDone p hm
      rcases hall p hm with h | h <;> rw [h] at hd <;> simp [isDone] at hd
  · refine ⟨hr, hst, ?_⟩
    intro p hp
    have hd := hallDone p hp
    rcases hall p hp with h | h | h
    · rw [h] at hd
      simp [isDone] at hd
    · rw [h] at hd
      simp [isDone] at hd
    · exact h

/-- Witness for `get_token_concurrent_single_rotation`: a complete
two-caller execution against the fresh-rotating issuer reaches the
state where both callers returned the rotated token after one rotate. -/
theorem get_token_concurrent_single_rotation_witness :
    (⟨[ProcState.done (.ok "new"), ProcState.done (.ok "new")],
        ⟨"new", 1209600⟩, 1, 1⟩ : SysState).rotates = 1 ∧
    (⟨[ProcState.done (.ok "new"), ProcState.done (.ok "new")],
        ⟨"new", 1209600⟩, 1, 1⟩ : SysState).store =
      rotatedToken freshRotateApi ⟨"old", 172800⟩ := by
  have st1 : Step 0 freshRotateApi (initState 2 ⟨"old", 172800⟩)
      ⟨[ProcState.awaitLock, ProcState.idle], ⟨"old", 172800⟩, 0, 0⟩ :=
    Step.load_slow _ 0 rfl (by decide) (by decide)
  have st2 : Step 0 freshRotateApi
      ⟨[ProcState.awaitLock, ProcState.idle], ⟨"old", 172800⟩, 0, 0⟩
      ⟨[ProcState.done (.ok "new"), ProcState.idle], ⟨"new", 1209600⟩, 1, 1⟩ :=
    Step.locked _ 0 rfl
  have st3 : Step 0 freshRotateApi
      ⟨[ProcState.done (.ok "new"), ProcState.idle], ⟨"new", 1209600⟩, 1, 1⟩
      ⟨[ProcState.done (.ok "new"), ProcState.done (.ok "new")],
        ⟨"new", 1209600⟩, 1, 1⟩ :=
    Step.load_fast _ 1 rfl (by decide) (by decide)
  have h := get_token_concurrent_single_rotation 0 freshRotateApi
    ⟨"old", 172800⟩ 2
    ⟨[ProcState.done (.ok "new"), ProcState.done (.ok "new")],
      ⟨"new", 1209600⟩, 1, 1⟩
    (by decide) (by decide) (by decide) rfl rfl (by decide)
    (Relation.ReflTransGen.tail
      (Relation.ReflTransGen.tail (Relation.ReflTransGen.single st1) st2) st3)
    rfl
  exact ⟨h.1, h.2.1⟩

end RtbSdk
